import Mathlib

/-!
Shallow embedding of the srlpfacalculator core:
tax constants (src/constants/tax.ts), the income aggregator and the
two calculators (src/hooks/useTaxCalculations.ts), and the scenario
store (useTaxStore, src/unnamed/part_000).  JavaScript numbers are
modelled as exact rationals; JSON parse results for import are
modelled by Option-valued record shapes.
-/

-- ============ 2026 TAX CONSTANTS (src/constants/tax.ts) ============

def MINIMUM_SALARY : ℚ := 4050

def CASS_MIN_THRESHOLD : ℚ := 6 * MINIMUM_SALARY

def CASS_MAX_THRESHOLD : ℚ := 60 * MINIMUM_SALARY

def CAS_THRESHOLD_LOW : ℚ := 12 * MINIMUM_SALARY

def CAS_THRESHOLD_HIGH : ℚ := 24 * MINIMUM_SALARY

def CASS_MINIMUM : ℚ := CASS_MIN_THRESHOLD * 0.10

def CASS_MAXIMUM : ℚ := CASS_MAX_THRESHOLD * 0.10

def CAS_TIER1 : ℚ := CAS_THRESHOLD_LOW * 0.25

def CAS_TIER2 : ℚ := CAS_THRESHOLD_HIGH * 0.25

def INCOME_TAX_RATE : ℚ := 0.10

def MICRO_TAX_RATE : ℚ := 0.01

def STANDARD_TAX_RATE : ℚ := 0.16

def DIVIDEND_TAX_RATE : ℚ := 0.16

def VAT_RATE : ℚ := 0.19

def MICRO_REVENUE_LIMIT : ℚ := 500000

def SRL_ACCOUNTING_LOW : ℚ := 3000

def SRL_ACCOUNTING_HIGH : ℚ := 9000

def SRL_BANK_FEES : ℚ := 1500

def SRL_DIGITAL_SIGNATURE : ℚ := 300

def EMPLOYER_CAM_RATE : ℚ := 0.0225

def EMPLOYEE_CAS_RATE : ℚ := 0.25

def EMPLOYEE_CASS_RATE : ℚ := 0.10

def SALARY_INCOME_TAX_RATE : ℚ := 0.10

-- ============ DATA MODEL (useTaxStore) ============

/-- An income entry (interface Income). -/
structure Income where
  id : Int
  name : String
  amount : ℚ
  isRecurring : Bool
  months : ℚ
deriving DecidableEq

/-- Individual-entity options: isEmployed and the (unused by the
calculator) gross salary, as destructured in App.tsx and the spec. -/
structure PFAOptions where
  isEmployed : Bool
  employmentGrossSalary : ℚ
deriving DecidableEq

/-- Company options as stored (interface SRLOptions). -/
structure SRLOptions where
  isMicro : Bool
  dividendPercent : ℚ
  paySalary : Bool
  monthlySalary : ℚ
deriving DecidableEq

/-- The extended option record `SRLOptions & \x7b vatStatus; euRevenuePercent \x7d`
passed to useSRLCalculations. -/
structure SRLOptionsExt extends SRLOptions where
  vatStatus : String
  euRevenuePercent : ℚ
deriving DecidableEq

inductive CasStatus where
  | not_required
  | tier1
  | tier2
deriving DecidableEq

/-- Result record of the individual-entity calculator. -/
structure PFACalculations where
  annualGross : ℚ
  annualExpenses : ℚ
  netIncome : ℚ
  cas : ℚ
  casStatus : CasStatus
  cass : ℚ
  taxableBase : ℚ
  incomeTax : ℚ
  totalTaxes : ℚ
  canSpend : ℚ
  effectiveRate : ℚ
deriving DecidableEq

/-- Result record of the company calculator. -/
structure SRLCalculations where
  annualRevenue : ℚ
  annualExpenses : ℚ
  operatingCosts : ℚ
  isVATRegistered : Bool
  vatToPay : ℚ
  vatCollected : ℚ
  vatOnExpenses : ℚ
  canBeMicro : Bool
  isMicro : Bool
  salaryCostToCompany : ℚ
  salaryNetToOwner : ℚ
  salaryEmployerCAM : ℚ
  salaryEmployeeCAS : ℚ
  salaryEmployeeCASS : ℚ
  salaryIncomeTax : ℚ
  grossProfit : ℚ
  corporateTax : ℚ
  netProfit : ℚ
  dividendAmount : ℚ
  dividendTax : ℚ
  dividendNet : ℚ
  retainedProfit : ℚ
  totalToOwner : ℚ
  totalGovTaxes : ℚ
  effectiveRate : ℚ
deriving DecidableEq

-- ============ JS MATH HELPERS ============

/-- JavaScript Math.max on two numbers. -/
def mathMax (a b : ℚ) : ℚ := if a ≤ b then b else a

/-- JavaScript Math.min on two numbers. -/
def mathMin (a b : ℚ) : ℚ := if a ≤ b then a else b

-- ============ INCOME AGGREGATOR ============

/-- The per-entry annual contribution:
`inc.isRecurring ? inc.amount * (inc.months || 12) : inc.amount`.
A falsy `months` (0) defaults the multiplier to 12. -/
def incomeContribution (inc : Income) : ℚ :=
  if inc.isRecurring then inc.amount * (if inc.months = 0 then 12 else inc.months)
  else inc.amount

/-- `calculateAnnualIncome`: reduce over the income list with initial sum 0. -/
def calculateAnnualIncome (incomes : List Income) : ℚ :=
  incomes.foldl (fun sum inc => sum + incomeContribution inc) 0

-- ============ INDIVIDUAL-ENTITY CALCULATOR ============

/-- The CASS branch of usePFACalculations as a function of the employment
flag and netIncome (the only data the branch reads). -/
def cassOf (isEmployed : Bool) (netIncome : ℚ) : ℚ :=
  if isEmployed = true ∧ netIncome < CASS_MIN_THRESHOLD then 0
  else if isEmployed = true then mathMin (netIncome * 0.10) CASS_MAXIMUM
  else if netIncome < CASS_MIN_THRESHOLD then CASS_MINIMUM
  else if netIncome > CASS_MAX_THRESHOLD then CASS_MAXIMUM
  else netIncome * 0.10

/-- The CAS branch of usePFACalculations: amount and status from netIncome. -/
def casOf (netIncome : ℚ) : ℚ × CasStatus :=
  if netIncome ≤ CAS_THRESHOLD_LOW then (0, CasStatus.not_required)
  else if netIncome ≤ CAS_THRESHOLD_HIGH then (CAS_TIER1, CasStatus.tier1)
  else (CAS_TIER2, CasStatus.tier2)

/-- usePFACalculations (the useMemo wrapper is identity on the value). -/
def usePFACalculations (incomes : List Income) (monthlyExpenses : ℚ)
    (pfaOptions : PFAOptions) : PFACalculations :=
  let annualGross := calculateAnnualIncome incomes
  let annualExpenses := monthlyExpenses * 12
  let netIncome := mathMax 0 (annualGross - annualExpenses)
  let cass := cassOf pfaOptions.isEmployed netIncome
  let casPair := casOf netIncome
  let cas := casPair.1
  let casStatus := casPair.2
  let taxableBase := mathMax 0 (netIncome - cas - cass)
  let incomeTax := taxableBase * INCOME_TAX_RATE
  let totalTaxes := cas + cass + incomeTax
  let canSpend := netIncome - totalTaxes
  let effectiveRate := if annualGross > 0 then totalTaxes / annualGross * 100 else 0
  { annualGross, annualExpenses, netIncome, cas, casStatus, cass,
    taxableBase, incomeTax, totalTaxes, canSpend, effectiveRate }

-- ============ COMPANY CALCULATOR ============

/-- useSRLCalculations (the useMemo wrapper is identity on the value). -/
def useSRLCalculations (incomes : List Income) (monthlyExpenses : ℚ)
    (srlOptions : SRLOptionsExt) : SRLCalculations :=
  let annualRevenue := calculateAnnualIncome incomes
  let annualExpenses := monthlyExpenses * 12
  let accountingCost := (SRL_ACCOUNTING_LOW + SRL_ACCOUNTING_HIGH) / 2
  let operatingCosts := accountingCost + SRL_BANK_FEES + SRL_DIGITAL_SIGNATURE
  let isVATRegistered := !(srlOptions.vatStatus == "not_registered")
  let domesticRevenue := annualRevenue * (1 - srlOptions.euRevenuePercent / 100)
  let vatCollected := if isVATRegistered then domesticRevenue * VAT_RATE else 0
  let vatOnExpenses := if isVATRegistered then annualExpenses * VAT_RATE else 0
  let vatToPay := mathMax 0 (vatCollected - vatOnExpenses)
  let canBeMicro := decide (annualRevenue ≤ MICRO_REVENUE_LIMIT)
  let isMicro := srlOptions.isMicro && canBeMicro
  let grossSalary := srlOptions.monthlySalary * 12
  let salaryEmployerCAM := if srlOptions.paySalary then grossSalary * EMPLOYER_CAM_RATE else 0
  let salaryEmployeeCAS := if srlOptions.paySalary then grossSalary * EMPLOYEE_CAS_RATE else 0
  let salaryEmployeeCASS := if srlOptions.paySalary then grossSalary * EMPLOYEE_CASS_RATE else 0
  let taxableNetSalary := grossSalary - salaryEmployeeCAS - salaryEmployeeCASS
  let salaryIncomeTax := if srlOptions.paySalary then taxableNetSalary * SALARY_INCOME_TAX_RATE else 0
  let salaryCostToCompany := if srlOptions.paySalary then grossSalary + salaryEmployerCAM else 0
  let salaryNetToOwner := if srlOptions.paySalary then grossSalary - salaryEmployeeCAS - salaryEmployeeCASS - salaryIncomeTax else 0
  let grossProfit := mathMax 0 (annualRevenue - annualExpenses - salaryCostToCompany - operatingCosts)
  let corporateTax := if isMicro then annualRevenue * MICRO_TAX_RATE else grossProfit * STANDARD_TAX_RATE
  let netProfit := mathMax 0 (grossProfit - corporateTax)
  let dividendAmount := netProfit * (srlOptions.dividendPercent / 100)
  let dividendTax := dividendAmount * DIVIDEND_TAX_RATE
  let dividendNet := dividendAmount - dividendTax
  let retainedProfit := netProfit - dividendAmount
  let totalToOwner := salaryNetToOwner + dividendNet
  let salaryTaxesTotal := if srlOptions.paySalary then
      salaryEmployerCAM + salaryEmployeeCAS + salaryEmployeeCASS + salaryIncomeTax
    else 0
  let totalGovTaxes := corporateTax + dividendTax + salaryTaxesTotal
  let effectiveRate := if annualRevenue > 0 then totalGovTaxes / annualRevenue * 100 else 0
  { annualRevenue, annualExpenses, operatingCosts, isVATRegistered, vatToPay,
    vatCollected, vatOnExpenses, canBeMicro, isMicro, salaryCostToCompany,
    salaryNetToOwner, salaryEmployerCAM, salaryEmployeeCAS, salaryEmployeeCASS,
    salaryIncomeTax, grossProfit, corporateTax, netProfit, dividendAmount,
    dividendTax, dividendNet, retainedProfit, totalToOwner, totalGovTaxes,
    effectiveRate }

-- ============ SCENARIO STORE (useTaxStore, src/unnamed/part_000) ============

inductive Mode where
  | pfa
  | srl
deriving DecidableEq

inductive DisplayCurrency where
  | RON
  | EUR
  | USD
deriving DecidableEq

/-- interface ProjectData. -/
structure ProjectData where
  mode : Mode
  incomes : List Income
  monthlyExpenses : ℚ
  displayCurrency : DisplayCurrency
  srlOptions : SRLOptions
deriving DecidableEq

/-- interface Project: a persisted scenario. -/
structure Project where
  id : String
  name : String
  createdAt : String
  updatedAt : String
  data : ProjectData
deriving DecidableEq

/-- defaultProjectData from the store source. -/
def defaultProjectData : ProjectData :=
  { mode := Mode.pfa
    incomes := [{ id := 1, name := "Web Project", amount := 4000, isRecurring := false, months := 1 }]
    monthlyExpenses := 0
    displayCurrency := DisplayCurrency.RON
    srlOptions := { isMicro := true, dividendPercent := 50, paySalary := false, monthlySalary := 4050 } }

/-- The store state: working configuration, persisted list, bound active id. -/
structure TaxStoreState where
  currentProject : ProjectData
  projects : List Project
  activeProjectId : Option String
deriving DecidableEq

/-- saveProject: update the scenario matching the bound active id if one is
present, else append a new scenario (with the generated id and the current
timestamp passed explicitly) and bind it active. -/
def saveProject (name now freshId : String) (s : TaxStoreState) : TaxStoreState :=
  match s.projects.find? (fun p => some p.id == s.activeProjectId) with
  | some _ =>
      { s with projects := s.projects.map (fun p =>
          if some p.id == s.activeProjectId then
            { p with name := name, updatedAt := now, data := s.currentProject }
          else p) }
  | none =>
      let newProject : Project :=
        { id := freshId, name := name, createdAt := now, updatedAt := now,
          data := s.currentProject }
      { s with projects := s.projects ++ [newProject],
               activeProjectId := some freshId }

/-- A scenario as it appears after JSON.parse of arbitrary import text:
every field may be missing (none). -/
structure RawProject where
  id : Option String
  name : Option String
  createdAt : Option String
  updatedAt : Option String
  data : Option ProjectData
deriving DecidableEq

/-- The parsed top-level import payload; `projects` is none when the field
is absent or not an array. -/
structure ImportShape where
  projects : Option (List RawProject)
deriving DecidableEq

/-- JavaScript truthiness of an optional string field: absent (undefined)
and the empty string are falsy. -/
def strTruthy : Option String → Bool
  | none => false
  | some s => !(s == "")

/-- The per-scenario validation `!project.id || !project.name || !project.data`
(negated): all three fields present and truthy. -/
def rawValid (p : RawProject) : Bool :=
  strTruthy p.id && strTruthy p.name && p.data.isSome

/-- The stored form of a validated imported scenario (missing timestamp
fields stay absent in JS; the model defaults them to the empty string). -/
def rawToProject (p : RawProject) : Project :=
  { id := p.id.getD "", name := p.name.getD "", createdAt := p.createdAt.getD "",
    updatedAt := p.updatedAt.getD "", data := p.data.getD defaultProjectData }

/-- importProjects over the parse result of the input text (none when
JSON.parse throws): validate, then append the scenarios whose id is not
already stored.  The boolean is the return value of the source function;
every failure path is caught and returns false with the state unchanged. -/
def importProjects (input : Option ImportShape) (s : TaxStoreState) :
    Bool × TaxStoreState :=
  match input with
  | none => (false, s)
  | some d =>
    match d.projects with
    | none => (false, s)
    | some ps =>
      if ps.all rawValid then
        let existingIds := s.projects.map (fun p => p.id)
        let newProjects :=
          (ps.filter (fun p => !(existingIds.contains (p.id.getD "")))).map rawToProject
        (true, { s with projects := s.projects ++ newProjects })
      else (false, s)

/-- The export payload `\x7b version, exportedAt, projects \x7d`. -/
structure ExportShape where
  version : String
  exportedAt : String
  projects : List Project
deriving DecidableEq

/-- exportProjects (the serialization timestamp passed explicitly). -/
def exportProjects (exportedAt : String) (s : TaxStoreState) : ExportShape :=
  { version := "1.0", exportedAt := exportedAt, projects := s.projects }

/-- JSON.stringify then JSON.parse of a stored scenario: every field is
present in the round-tripped record. -/
def projectToRaw (p : Project) : RawProject :=
  { id := some p.id, name := some p.name, createdAt := some p.createdAt,
    updatedAt := some p.updatedAt, data := some p.data }

/-- Parsing the text produced by exportProjects: parsing succeeds and the
projects array is present, with each scenario field present. -/
def parseExported (e : ExportShape) : Option ImportShape :=
  some { projects := some (e.projects.map projectToRaw) }

/-- A pair of concrete income entries used to witness C4. -/
def sampleIncomeA : Income := ⟨1, "a", 100, true, 0⟩

/-- A pair of concrete income entries used to witness C4. -/
def sampleIncomeB : Income := ⟨2, "b", 7, false, 3⟩


/-- Concrete store states and raw scenarios for the store witnesses. -/
def store0 : TaxStoreState := ⟨defaultProjectData, [], none⟩

/-- A valid raw scenario for the C7 witness. -/
def rawGood : RawProject := ⟨some "2", some "n", none, none, some defaultProjectData⟩

/-- A raw scenario lacking an id for the C7 witness. -/
def rawBad : RawProject := ⟨none, some "n", none, none, some defaultProjectData⟩


/-- A store state holding one scenario whose name is the empty string
(reachable through saveProject with an empty name). -/
def emptyNameState : TaxStoreState :=
  ⟨defaultProjectData, [⟨"1", "", "t0", "t0", defaultProjectData⟩], none⟩


-- ============ HELPER LEMMAS ============

theorem mathMax_eq_max (a b : ℚ) : mathMax a b = max a b := by
  rw [mathMax, max_def]

theorem mathMin_eq_min (a b : ℚ) : mathMin a b = min a b := by
  rw [mathMin, min_def]


/-- Sanity check against the concrete case of the spec. -/
theorem pfa_concrete_cass : (usePFACalculations [⟨1, "w", 4000, false, 1⟩] 0 ⟨false, 0⟩).cass = 2430 := by
  norm_num [usePFACalculations, calculateAnnualIncome, incomeContribution, cassOf, casOf,
    mathMax, mathMin, CASS_MIN_THRESHOLD, CASS_MAX_THRESHOLD, CASS_MINIMUM, CASS_MAXIMUM,
    MINIMUM_SALARY]
/-- Sanity check against the concrete case of the spec. -/
theorem pfa_concrete_totalTaxes : (usePFACalculations [⟨1, "w", 4000, false, 1⟩] 0 ⟨false, 0⟩).totalTaxes = 2587 := by
  norm_num [usePFACalculations, calculateAnnualIncome, incomeContribution, cassOf, casOf,
    mathMax, mathMin, CASS_MIN_THRESHOLD, CASS_MAX_THRESHOLD, CASS_MINIMUM, CASS_MAXIMUM,
    CAS_THRESHOLD_LOW, CAS_THRESHOLD_HIGH, CAS_TIER1, CAS_TIER2, INCOME_TAX_RATE,
    MINIMUM_SALARY]
/-- Sanity check against the concrete company case of the spec. -/
theorem srl_concrete_canBeMicro : (useSRLCalculations [⟨1, "w", 600000, false, 1⟩] 0 ⟨⟨true, 50, false, 4050⟩, "not_registered", 0⟩).canBeMicro = false := by
  norm_num [useSRLCalculations, calculateAnnualIncome, incomeContribution,
    MICRO_REVENUE_LIMIT]



theorem calculateAnnualIncome_eq_sum (l : List Income) :
    calculateAnnualIncome l = (l.map incomeContribution).sum := by
  suffices h : ∀ a : ℚ, l.foldl (fun s i => s + incomeContribution i) a =
      a + (l.map incomeContribution).sum by
    simpa [calculateAnnualIncome] using h 0
  induction l with
  | nil => intro a; simp
  | cons x xs ih => intro a; simp [ih, add_assoc]

theorem incomeContribution_nonneg (i : Income) (ha : 0 ≤ i.amount)
    (hm : 0 ≤ i.months) : 0 ≤ incomeContribution i := by
  unfold incomeContribution
  split
  · apply mul_nonneg ha
    split <;> [norm_num; exact hm]
  · exact ha

theorem calculateAnnualIncome_nonneg (l : List Income)
    (h : ∀ i ∈ l, 0 ≤ i.amount ∧ 0 ≤ i.months) : 0 ≤ calculateAnnualIncome l := by
  rw [calculateAnnualIncome_eq_sum]
  apply List.sum_nonneg
  intro x hx
  obtain ⟨i, hi, rfl⟩ := List.mem_map.mp hx
  exact incomeContribution_nonneg i (h i hi).1 (h i hi).2

theorem casOf_fst_nonneg (n : ℚ) : 0 ≤ (casOf n).1 := by
  unfold casOf
  split_ifs <;> norm_num [CAS_TIER1, CAS_TIER2, CAS_THRESHOLD_LOW, CAS_THRESHOLD_HIGH,
    MINIMUM_SALARY]

theorem cassOf_nonneg (e : Bool) (n : ℚ) (hn : 0 ≤ n) : 0 ≤ cassOf e n := by
  unfold cassOf
  rw [mathMin_eq_min]
  split_ifs
  · norm_num
  · exact le_min (by positivity) (by norm_num [CASS_MAXIMUM, CASS_MAX_THRESHOLD,
      MINIMUM_SALARY])
  · norm_num [CASS_MINIMUM, CASS_MIN_THRESHOLD, MINIMUM_SALARY]
  · norm_num [CASS_MAXIMUM, CASS_MAX_THRESHOLD, MINIMUM_SALARY]
  · positivity

-- ============ CLAIM THEOREMS ============

/-- C1: for every income list, monthly expenses and options, the health
contribution of the individual-entity calculator follows the tiered rule on
netIncome: when not employed, flat minimum below CASS_MIN_THRESHOLD, flat
maximum above CASS_MAX_THRESHOLD, 10% of netIncome between; when employed,
0 below CASS_MIN_THRESHOLD and otherwise 10% of netIncome capped at
CASS_MAXIMUM. -/
theorem pfa_cass_tier_rule (incomes : List Income) (me : ℚ) (o : PFAOptions) :
    (usePFACalculations incomes me o).cass =
      (if o.isEmployed = true then
        (if (usePFACalculations incomes me o).netIncome < CASS_MIN_THRESHOLD then 0
         else min ((usePFACalculations incomes me o).netIncome * 0.10) CASS_MAXIMUM)
       else
        (if (usePFACalculations incomes me o).netIncome < CASS_MIN_THRESHOLD then CASS_MINIMUM
         else if (usePFACalculations incomes me o).netIncome > CASS_MAX_THRESHOLD then CASS_MAXIMUM
         else (usePFACalculations incomes me o).netIncome * 0.10)) := by
  have h : (usePFACalculations incomes me o).cass =
      cassOf o.isEmployed (usePFACalculations incomes me o).netIncome := rfl
  rw [h]
  unfold cassOf
  rw [mathMin_eq_min]
  cases he : o.isEmployed <;> simp [he]

/-- C3: the pension contribution is a three-band step function of netIncome
with a matching status tag (0 and not_required at or below CAS_THRESHOLD_LOW,
CAS_TIER1 and tier1 at or below CAS_THRESHOLD_HIGH, CAS_TIER2 and tier2
above), takes no other value, and the tier2 amount is exactly double tier1. -/
theorem pfa_cas_step_rule (incomes : List Income) (me : ℚ) (o : PFAOptions) :
    ((usePFACalculations incomes me o).netIncome ≤ CAS_THRESHOLD_LOW →
       (usePFACalculations incomes me o).cas = 0 ∧
       (usePFACalculations incomes me o).casStatus = CasStatus.not_required) ∧
    (CAS_THRESHOLD_LOW < (usePFACalculations incomes me o).netIncome →
       (usePFACalculations incomes me o).netIncome ≤ CAS_THRESHOLD_HIGH →
       (usePFACalculations incomes me o).cas = CAS_TIER1 ∧
       (usePFACalculations incomes me o).casStatus = CasStatus.tier1) ∧
    (CAS_THRESHOLD_HIGH < (usePFACalculations incomes me o).netIncome →
       (usePFACalculations incomes me o).cas = CAS_TIER2 ∧
       (usePFACalculations incomes me o).casStatus = CasStatus.tier2) ∧
    ((usePFACalculations incomes me o).cas = 0 ∨
     (usePFACalculations incomes me o).cas = CAS_TIER1 ∨
     (usePFACalculations incomes me o).cas = CAS_TIER2) ∧
    CAS_TIER2 = 2 * CAS_TIER1 := by
  have hc : (usePFACalculations incomes me o).cas =
      (casOf (usePFACalculations incomes me o).netIncome).1 := rfl
  have hs : (usePFACalculations incomes me o).casStatus =
      (casOf (usePFACalculations incomes me o).netIncome).2 := rfl
  rw [hc, hs]
  unfold casOf
  have hlh : CAS_THRESHOLD_LOW < CAS_THRESHOLD_HIGH := by
    norm_num [CAS_THRESHOLD_LOW, CAS_THRESHOLD_HIGH, MINIMUM_SALARY]
  refine ⟨?_, ?_, ?_, ?_, ?_⟩
  · intro h1; rw [if_pos h1]; exact ⟨rfl, rfl⟩
  · intro h1 h2
    rw [if_neg (by linarith), if_pos h2]
    exact ⟨rfl, rfl⟩
  · intro h1
    rw [if_neg (by linarith), if_neg (by linarith)]
    exact ⟨rfl, rfl⟩
  · split_ifs <;> simp
  · norm_num [CAS_TIER1, CAS_TIER2, CAS_THRESHOLD_LOW, CAS_THRESHOLD_HIGH, MINIMUM_SALARY]

/-- C3 witness: at a 4,000 RON one-off income the pension band is
not-required with amount 0. -/
theorem pfa_cas_step_rule_witness :
    (usePFACalculations [⟨1, "w", 4000, false, 1⟩] 0 ⟨false, 0⟩).cas = 0 ∧
    (usePFACalculations [⟨1, "w", 4000, false, 1⟩] 0 ⟨false, 0⟩).casStatus =
      CasStatus.not_required :=
  (pfa_cas_step_rule [⟨1, "w", 4000, false, 1⟩] 0 ⟨false, 0⟩).1
    (by norm_num [usePFACalculations, calculateAnnualIncome, incomeContribution, mathMax,
      CAS_THRESHOLD_LOW, MINIMUM_SALARY])

/-- C4: the income aggregator returns the sum over the entries of
(amount times months when recurring, with a falsy months defaulting to 12,
else amount), the empty list yields 0, and the result is invariant under
permutation of the entries. -/
theorem calculateAnnualIncome_spec :
    (∀ l : List Income,
       calculateAnnualIncome l =
         (l.map (fun inc =>
           if inc.isRecurring then inc.amount * (if inc.months = 0 then 12 else inc.months)
           else inc.amount)).sum) ∧
    calculateAnnualIncome ([] : List Income) = 0 ∧
    (∀ l1 l2 : List Income, l1.Perm l2 →
       calculateAnnualIncome l1 = calculateAnnualIncome l2) := by
  refine ⟨?_, rfl, ?_⟩
  · intro l
    rw [calculateAnnualIncome_eq_sum]
    rfl
  · intro l1 l2 hp
    rw [calculateAnnualIncome_eq_sum, calculateAnnualIncome_eq_sum]
    exact List.Perm.sum_eq (hp.map incomeContribution)

/-- C4 witness: swapping two concrete entries keeps the aggregate. -/
theorem calculateAnnualIncome_spec_witness :
    calculateAnnualIncome [sampleIncomeA, sampleIncomeB] =
      calculateAnnualIncome [sampleIncomeB, sampleIncomeA] :=
  calculateAnnualIncome_spec.2.2 [sampleIncomeA, sampleIncomeB]
    [sampleIncomeB, sampleIncomeA]
    (List.Perm.swap sampleIncomeB sampleIncomeA [])

/-- C10: the employmentGrossSalary option has no influence on any output of
the individual-entity calculator: two option records agreeing on isEmployed
give identical breakdowns. -/
theorem pfa_salary_noninfluence (incomes : List Income) (me : ℚ)
    (o1 o2 : PFAOptions) (h : o1.isEmployed = o2.isEmployed) :
    usePFACalculations incomes me o1 = usePFACalculations incomes me o2 := by
  unfold usePFACalculations
  rw [h]

/-- C10 witness: gross salaries 0 and 12,345 give the same breakdown. -/
theorem pfa_salary_noninfluence_witness :
    usePFACalculations [⟨1, "w", 4000, false, 1⟩] 0 ⟨true, 0⟩ =
      usePFACalculations [⟨1, "w", 4000, false, 1⟩] 0 ⟨true, 12345⟩ :=
  pfa_salary_noninfluence [⟨1, "w", 4000, false, 1⟩] 0 ⟨true, 0⟩ ⟨true, 12345⟩ rfl

/-- C2: canBeMicro is revenue at most the 500,000 micro limit, isMicro is
the requested flag conjoined with eligibility, corporate tax is 1% of
revenue under micro and 16% of gross profit otherwise; at 600,000 revenue
with micro requested, eligibility and micro are overridden to false and the
tax is 16% of profit, not 1% of revenue. -/
theorem srl_micro_regime_rule :
    (∀ (incomes : List Income) (me : ℚ) (o : SRLOptionsExt),
       (useSRLCalculations incomes me o).canBeMicro =
         decide ((useSRLCalculations incomes me o).annualRevenue ≤ MICRO_REVENUE_LIMIT) ∧
       (useSRLCalculations incomes me o).isMicro =
         (o.isMicro && (useSRLCalculations incomes me o).canBeMicro) ∧
       (useSRLCalculations incomes me o).corporateTax =
         (if (useSRLCalculations incomes me o).isMicro = true then
            (useSRLCalculations incomes me o).annualRevenue * MICRO_TAX_RATE
          else (useSRLCalculations incomes me o).grossProfit * STANDARD_TAX_RATE)) ∧
    MICRO_REVENUE_LIMIT = 500000 ∧
    ((useSRLCalculations [⟨1, "w", 600000, false, 1⟩] 0
        ⟨⟨true, 50, false, 4050⟩, "not_registered", 0⟩).canBeMicro = false ∧
     (useSRLCalculations [⟨1, "w", 600000, false, 1⟩] 0
        ⟨⟨true, 50, false, 4050⟩, "not_registered", 0⟩).isMicro = false ∧
     (useSRLCalculations [⟨1, "w", 600000, false, 1⟩] 0
        ⟨⟨true, 50, false, 4050⟩, "not_registered", 0⟩).corporateTax =
       (useSRLCalculations [⟨1, "w", 600000, false, 1⟩] 0
          ⟨⟨true, 50, false, 4050⟩, "not_registered", 0⟩).grossProfit * STANDARD_TAX_RATE ∧
     (useSRLCalculations [⟨1, "w", 600000, false, 1⟩] 0
        ⟨⟨true, 50, false, 4050⟩, "not_registered", 0⟩).corporateTax ≠
       (useSRLCalculations [⟨1, "w", 600000, false, 1⟩] 0
          ⟨⟨true, 50, false, 4050⟩, "not_registered", 0⟩).annualRevenue * MICRO_TAX_RATE) := by
  refine ⟨fun incomes me o => ⟨rfl, rfl, rfl⟩, by norm_num [MICRO_REVENUE_LIMIT], ?_⟩
  refine ⟨?_, ?_, ?_, ?_⟩ <;>
    norm_num [useSRLCalculations, calculateAnnualIncome, incomeContribution, mathMax,
      MICRO_REVENUE_LIMIT, MICRO_TAX_RATE, STANDARD_TAX_RATE, SRL_ACCOUNTING_LOW,
      SRL_ACCOUNTING_HIGH, SRL_BANK_FEES, SRL_DIGITAL_SIGNATURE]

/-- C5 counterexample: with monthly expenses -1 the breakdown field
annualExpenses is -12, a negative decimal value other than canSpend, so the
claim that every such field is non-negative for every input fails. -/
theorem pfa_nonneg_counterexample :
    (usePFACalculations [] (-1) ⟨false, 0⟩).annualExpenses < 0 := by
  norm_num [usePFACalculations, calculateAnnualIncome]

/-- C5 (amended): netIncome, cas, cass, taxableBase, incomeTax, totalTaxes
and effectiveRate are non-negative for every input, canSpend equals
netIncome minus totalTaxes unclamped and is negative exactly when the taxes
exceed net income; annualGross and annualExpenses are non-negative provided
the income amounts, their months, and the monthly expenses are
non-negative. -/
theorem pfa_breakdown_nonneg_amended :
    (∀ (incomes : List Income) (me : ℚ) (o : PFAOptions),
       0 ≤ (usePFACalculations incomes me o).netIncome ∧
       0 ≤ (usePFACalculations incomes me o).cas ∧
       0 ≤ (usePFACalculations incomes me o).cass ∧
       0 ≤ (usePFACalculations incomes me o).taxableBase ∧
       0 ≤ (usePFACalculations incomes me o).incomeTax ∧
       0 ≤ (usePFACalculations incomes me o).totalTaxes ∧
       0 ≤ (usePFACalculations incomes me o).effectiveRate ∧
       (usePFACalculations incomes me o).canSpend =
         (usePFACalculations incomes me o).netIncome -
           (usePFACalculations incomes me o).totalTaxes ∧
       ((usePFACalculations incomes me o).canSpend < 0 ↔
         (usePFACalculations incomes me o).netIncome <
           (usePFACalculations incomes me o).totalTaxes)) ∧
    (∀ (incomes : List Income) (me : ℚ) (o : PFAOptions),
       (∀ i ∈ incomes, 0 ≤ i.amount ∧ 0 ≤ i.months) → 0 ≤ me →
       0 ≤ (usePFACalculations incomes me o).annualGross ∧
       0 ≤ (usePFACalculations incomes me o).annualExpenses) := by
  constructor
  · intro incomes me o
    have hnet : (usePFACalculations incomes me o).netIncome =
        mathMax 0 (calculateAnnualIncome incomes - me * 12) := rfl
    have hnetnn : 0 ≤ (usePFACalculations incomes me o).netIncome := by
      rw [hnet, mathMax_eq_max]; exact le_max_left 0 _
    have hcas : 0 ≤ (usePFACalculations incomes me o).cas := casOf_fst_nonneg _
    have hcass : 0 ≤ (usePFACalculations incomes me o).cass :=
      cassOf_nonneg o.isEmployed _ hnetnn
    have htb : (usePFACalculations incomes me o).taxableBase =
        mathMax 0 ((usePFACalculations incomes me o).netIncome -
          (usePFACalculations incomes me o).cas -
          (usePFACalculations incomes me o).cass) := rfl
    have htbnn : 0 ≤ (usePFACalculations incomes me o).taxableBase := by
      rw [htb, mathMax_eq_max]; exact le_max_left 0 _
    have hit : (usePFACalculations incomes me o).incomeTax =
        (usePFACalculations incomes me o).taxableBase * INCOME_TAX_RATE := rfl
    have hitnn : 0 ≤ (usePFACalculations incomes me o).incomeTax := by
      rw [hit]; apply mul_nonneg htbnn; norm_num [INCOME_TAX_RATE]
    have htt : (usePFACalculations incomes me o).totalTaxes =
        (usePFACalculations incomes me o).cas + (usePFACalculations incomes me o).cass +
          (usePFACalculations incomes me o).incomeTax := rfl
    have httnn : 0 ≤ (usePFACalculations incomes me o).totalTaxes := by
      rw [htt]; positivity
    have her : 0 ≤ (usePFACalculations incomes me o).effectiveRate := by
      have h : (usePFACalculations incomes me o).effectiveRate =
          (if (usePFACalculations incomes me o).annualGross > 0 then
             (usePFACalculations incomes me o).totalTaxes /
               (usePFACalculations incomes me o).annualGross * 100
           else 0) := rfl
      rw [h]
      split_ifs with hg
      · apply mul_nonneg (div_nonneg httnn (le_of_lt hg)); norm_num
      · exact le_refl 0
    have hcs : (usePFACalculations incomes me o).canSpend =
        (usePFACalculations incomes me o).netIncome -
          (usePFACalculations incomes me o).totalTaxes := rfl
    exact ⟨hnetnn, hcas, hcass, htbnn, hitnn, httnn, her, hcs,
      by rw [hcs]; constructor <;> intro h <;> linarith⟩
  · intro incomes me o hin hme
    constructor
    · exact calculateAnnualIncome_nonneg incomes hin
    · have h : (usePFACalculations incomes me o).annualExpenses = me * 12 := rfl
      rw [h]; positivity

/-- C5 witness: at one non-negative recurring income and non-negative
expenses the gross and expense fields are non-negative. -/
theorem pfa_breakdown_nonneg_amended_witness :
    0 ≤ (usePFACalculations [⟨1, "w", 4000, false, 1⟩] 2 ⟨false, 0⟩).annualGross ∧
    0 ≤ (usePFACalculations [⟨1, "w", 4000, false, 1⟩] 2 ⟨false, 0⟩).annualExpenses :=
  pfa_breakdown_nonneg_amended.2 [⟨1, "w", 4000, false, 1⟩] 2 ⟨false, 0⟩
    (by intro i hi; simp only [List.mem_singleton] at hi; subst hi; norm_num)
    (by norm_num)

/-- C6: for each fixed employment setting the health contribution is
monotonically non-decreasing in netIncome on [0, CASS_MAX_THRESHOLD] and
equals the flat CASS_MAXIMUM for every netIncome above that threshold; the
calculator field cass is exactly this function of its netIncome. -/
theorem cass_monotone_then_flat :
    (∀ (e : Bool) (n1 n2 : ℚ), 0 ≤ n1 → n1 ≤ n2 → n2 ≤ CASS_MAX_THRESHOLD →
       cassOf e n1 ≤ cassOf e n2) ∧
    (∀ (e : Bool) (n : ℚ), CASS_MAX_THRESHOLD < n → cassOf e n = CASS_MAXIMUM) ∧
    (∀ (incomes : List Income) (me : ℚ) (o : PFAOptions),
       (usePFACalculations incomes me o).cass =
         cassOf o.isEmployed (usePFACalculations incomes me o).netIncome) := by
  have c1 : CASS_MIN_THRESHOLD = 24300 := by norm_num [CASS_MIN_THRESHOLD, MINIMUM_SALARY]
  have c2 : CASS_MAX_THRESHOLD = 243000 := by norm_num [CASS_MAX_THRESHOLD, MINIMUM_SALARY]
  have c3 : CASS_MINIMUM = 2430 := by
    norm_num [CASS_MINIMUM, CASS_MIN_THRESHOLD, MINIMUM_SALARY]
  have c4 : CASS_MAXIMUM = 24300 := by
    norm_num [CASS_MAXIMUM, CASS_MAX_THRESHOLD, MINIMUM_SALARY]
  refine ⟨?_, ?_, fun incomes me o => rfl⟩
  · intro e n1 n2 h0 h12 h2
    rw [c2] at h2
    unfold cassOf
    rw [mathMin_eq_min, mathMin_eq_min, c1, c2, c3, c4]
    cases e
    · simp only [Bool.false_eq_true, false_and, if_false]
      split_ifs <;> linarith
    · simp only [eq_self_iff_true, true_and, if_true]
      split_ifs <;>
        first
          | linarith
          | exact le_min (by linarith) (by norm_num)
          | exact min_le_min (by linarith) le_rfl
  · intro e n h
    rw [c2] at h
    unfold cassOf
    rw [mathMin_eq_min, c1, c2, c4]
    cases e
    · simp only [Bool.false_eq_true, false_and, if_false]
      split_ifs <;> first | rfl | linarith
    · simp only [eq_self_iff_true, true_and, if_true]
      split_ifs
      · linarith
      · exact min_eq_right (by linarith)

/-- C6 witness: monotone step from 1,000 to 2,000 when not employed, and
the flat maximum at 250,000 when employed. -/
theorem cass_monotone_then_flat_witness :
    cassOf false 1000 ≤ cassOf false 2000 ∧ cassOf true 250000 = CASS_MAXIMUM :=
  ⟨cass_monotone_then_flat.1 false 1000 2000 (by norm_num) (by norm_num)
      (by norm_num [CASS_MAX_THRESHOLD, MINIMUM_SALARY]),
   cass_monotone_then_flat.2.1 true 250000
      (by norm_num [CASS_MAX_THRESHOLD, MINIMUM_SALARY])⟩

-- ============ STORE LEMMAS AND CLAIMS ============

theorem saveProject_update (name now freshId : String) (s : TaxStoreState)
    (aid : String) (hact : s.activeProjectId = some aid)
    (hmem : aid ∈ s.projects.map (fun p => p.id)) :
    saveProject name now freshId s =
      { s with projects := s.projects.map (fun p =>
          if p.id = aid then
            { p with name := name, updatedAt := now, data := s.currentProject }
          else p) } := by
  have hex : ∃ x ∈ s.projects, (some x.id == s.activeProjectId) = true := by
    obtain ⟨p, hp, hpid⟩ := List.mem_map.mp hmem
    exact ⟨p, hp, by rw [hact, hpid]; exact beq_self_eq_true (some aid)⟩
  have hsome : (s.projects.find? (fun p => some p.id == s.activeProjectId)).isSome :=
    List.find?_isSome.mpr hex
  obtain ⟨q, hq⟩ := Option.isSome_iff_exists.mp hsome
  unfold saveProject
  rw [hq]
  have hfn : (fun p : Project => if some p.id == s.activeProjectId then
        { p with name := name, updatedAt := now, data := s.currentProject } else p) =
      (fun p : Project => if p.id = aid then
        { p with name := name, updatedAt := now, data := s.currentProject } else p) := by
    funext p
    rw [hact]
    by_cases h : p.id = aid
    · simp [h]
    · simp [h]
  rw [hfn]

theorem filter_length_map_id_preserving (l : List Project) (aid : String)
    (fn : Project → Project) (hid : ∀ p, (fn p).id = p.id) :
    ((l.map fn).filter (fun p => p.id == aid)).length =
      (l.filter (fun p => p.id == aid)).length := by
  induction l with
  | nil => rfl
  | cons x xs ih =>
    by_cases h : (x.id == aid) = true
    · simp [List.filter_cons, hid, h, ih]
    · simp [List.filter_cons, hid, h, ih]

/-- C7: importProjects returns false for unparseable input, for a payload
without a scenario array, and for a payload with a scenario lacking a
truthy id, name, or data, leaving the state unchanged; on a fully valid
payload it returns true and appends exactly the imported scenarios whose
id is not already stored, leaving the existing scenarios unchanged. -/
theorem importProjects_spec :
    (∀ s : TaxStoreState, importProjects none s = (false, s)) ∧
    (∀ s : TaxStoreState, importProjects (some ⟨none⟩) s = (false, s)) ∧
    (∀ (s : TaxStoreState) (ps : List RawProject),
       (∃ p ∈ ps, rawValid p = false) →
       importProjects (some ⟨some ps⟩) s = (false, s)) ∧
    (∀ (s : TaxStoreState) (ps : List RawProject),
       (∀ p ∈ ps, rawValid p = true) →
       importProjects (some ⟨some ps⟩) s =
         (true, { s with
                  projects := s.projects ++
                    (ps.filter (fun p =>
                      !((s.projects.map (fun q => q.id)).contains (p.id.getD "")))).map
                      rawToProject })) := by
  have hdef : ∀ (s : TaxStoreState) (ps : List RawProject),
      importProjects (some ⟨some ps⟩) s =
        if ps.all rawValid = true then
          (true, { s with
                   projects := s.projects ++
                     (ps.filter (fun p =>
                       !((s.projects.map (fun q => q.id)).contains (p.id.getD "")))).map
                       rawToProject })
        else (false, s) := fun s ps => rfl
  refine ⟨fun s => rfl, fun s => rfl, ?_, ?_⟩
  · intro s ps hex
    obtain ⟨p, hp, hv⟩ := hex
    have hall : ps.all rawValid = false := by
      rw [List.all_eq_false]
      exact ⟨p, hp, by simp [hv]⟩
    rw [hdef, if_neg (by simp [hall])]
  · intro s ps hval
    have hall : ps.all rawValid = true := List.all_eq_true.mpr hval
    rw [hdef, if_pos hall]

/-- C7 witness: a valid single-scenario payload imports with success into
the empty store, and a payload whose scenario lacks an id fails and leaves
the store unchanged. -/
theorem importProjects_spec_witness :
    (importProjects (some ⟨some [rawGood]⟩) store0).1 = true ∧
    importProjects (some ⟨some [rawBad]⟩) store0 = (false, store0) :=
  ⟨by rw [importProjects_spec.2.2.2 store0 [rawGood]
      (by intro p hp; rw [List.mem_singleton] at hp; subst hp; decide)],
   importProjects_spec.2.2.1 store0 [rawBad]
      ⟨rawBad, List.mem_singleton.mpr rfl, by decide⟩⟩

/-- C8: with a bound active id present in the list, save overwrites that
scenario name, updatedAt and data in place, keeping the list length and
the binding; with no bound active id, save appends one new scenario with
the fresh identifier and binds it; saving twice with the same bound active
id present exactly once keeps exactly one record with that id and the same
list length. -/
theorem saveProject_spec :
    (∀ (name now freshId : String) (s : TaxStoreState) (aid : String),
       s.activeProjectId = some aid → aid ∈ s.projects.map (fun p => p.id) →
       (saveProject name now freshId s).projects =
         s.projects.map (fun p =>
           if p.id = aid then
             { p with name := name, updatedAt := now, data := s.currentProject }
           else p) ∧
       (saveProject name now freshId s).projects.length = s.projects.length ∧
       (saveProject name now freshId s).activeProjectId = s.activeProjectId) ∧
    (∀ (name now freshId : String) (s : TaxStoreState),
       s.activeProjectId = none →
       (saveProject name now freshId s).projects =
         s.projects ++ [{ id := freshId, name := name, createdAt := now,
                          updatedAt := now, data := s.currentProject }] ∧
       (saveProject name now freshId s).activeProjectId = some freshId) ∧
    (∀ (n1 t1 f1 n2 t2 f2 : String) (s : TaxStoreState) (aid : String),
       s.activeProjectId = some aid →
       (s.projects.filter (fun p => p.id == aid)).length = 1 →
       ((saveProject n2 t2 f2 (saveProject n1 t1 f1 s)).projects.filter
          (fun p => p.id == aid)).length = 1 ∧
       (saveProject n2 t2 f2 (saveProject n1 t1 f1 s)).projects.length =
         s.projects.length) := by
  refine ⟨?_, ?_, ?_⟩
  · intro name now freshId s aid hact hmem
    have h := saveProject_update name now freshId s aid hact hmem
    exact ⟨by rw [h], by rw [h]; simp, by rw [h]⟩
  · intro name now freshId s hact
    have hnone : s.projects.find? (fun p => some p.id == s.activeProjectId) = none := by
      rw [List.find?_eq_none]
      intro x hx
      rw [hact]
      simp
    have hdef : saveProject name now freshId s =
        { s with
          projects := s.projects ++ [{ id := freshId, name := name,
                                       createdAt := now, updatedAt := now,
                                       data := s.currentProject }],
          activeProjectId := some freshId } := by
      unfold saveProject
      rw [hnone]
    exact ⟨by rw [hdef], by rw [hdef]⟩
  · intro n1 t1 f1 n2 t2 f2 s aid hact hcount
    have hmem : aid ∈ s.projects.map (fun p => p.id) := by
      have hne : s.projects.filter (fun p => p.id == aid) ≠ [] := by
        intro h
        rw [h] at hcount
        simp at hcount
      obtain ⟨a, ha⟩ := List.exists_mem_of_ne_nil _ hne
      have hm := List.mem_filter.mp ha
      exact List.mem_map.mpr ⟨a, hm.1, by simpa using hm.2⟩
    have h1 := saveProject_update n1 t1 f1 s aid hact hmem
    have hid1 : ∀ p : Project, ((fun p : Project =>
        if p.id = aid then
          { p with name := n1, updatedAt := t1, data := s.currentProject }
        else p) p).id = p.id := by
      intro p
      by_cases h : p.id = aid
      · simp [h]
      · simp [h]
    have hact1 : (saveProject n1 t1 f1 s).activeProjectId = some aid := by
      rw [h1]
      exact hact
    have hmem1 : aid ∈ (saveProject n1 t1 f1 s).projects.map (fun p => p.id) := by
      rw [h1]
      simp only [List.map_map]
      have he : ((fun p : Project => p.id) ∘ (fun p : Project =>
          if p.id = aid then
            { p with name := n1, updatedAt := t1, data := s.currentProject }
          else p)) = (fun p : Project => p.id) := by
        funext p
        exact hid1 p
      rw [he]
      exact hmem
    have h2 := saveProject_update n2 t2 f2 (saveProject n1 t1 f1 s) aid hact1 hmem1
    have hid2 : ∀ p : Project, ((fun p : Project =>
        if p.id = aid then
          { p with name := n2, updatedAt := t2, data := (saveProject n1 t1 f1 s).currentProject }
        else p) p).id = p.id := by
      intro p
      by_cases h : p.id = aid
      · simp [h]
      · simp [h]
    constructor
    · rw [h2]
      simp only []
      rw [filter_length_map_id_preserving _ aid _ hid2]
      rw [h1]
      simp only []
      rw [filter_length_map_id_preserving _ aid _ hid1]
      exact hcount
    · rw [h2]
      simp only [List.length_map]
      rw [h1]
      simp only [List.length_map]

/-- C8 witness: a store with one scenario bound as active keeps exactly one
record with that id and length one after two consecutive saves, and an
unbound store appends one new scenario binding it active. -/
theorem saveProject_spec_witness :
    (((saveProject "b" "t2" "9" (saveProject "a" "t1" "8"
        ⟨defaultProjectData, [⟨"1", "A", "t0", "t0", defaultProjectData⟩],
         some "1"⟩)).projects.filter (fun p => p.id == "1")).length = 1 ∧
     (saveProject "b" "t2" "9" (saveProject "a" "t1" "8"
        ⟨defaultProjectData, [⟨"1", "A", "t0", "t0", defaultProjectData⟩],
         some "1"⟩)).projects.length = 1) ∧
    ((saveProject "a" "t1" "8" store0).projects =
       store0.projects ++ [{ id := "8", name := "a", createdAt := "t1",
                             updatedAt := "t1", data := store0.currentProject }] ∧
     (saveProject "a" "t1" "8" store0).activeProjectId = some "8") :=
  ⟨saveProject_spec.2.2 "a" "t1" "8" "b" "t2" "9"
      ⟨defaultProjectData, [⟨"1", "A", "t0", "t0", defaultProjectData⟩], some "1"⟩
      "1" rfl (by decide),
   saveProject_spec.2.1 "a" "t1" "8" store0 rfl⟩

/-- C9 counterexample: on a store whose single scenario has an empty name,
the import of the freshly exported text fails (the `!project.name` validation
rejects the falsy name), so the round trip does not succeed for every
store state. -/
theorem import_export_roundtrip_counterexample :
    (importProjects (parseExported (exportProjects "t1" emptyNameState))
       emptyNameState).1 = false := by
  decide

/-- C9 (amended): for every store state in which each stored scenario has a
nonempty id and a nonempty name, importing the exported text succeeds and
returns the state unchanged (same ids, names and data), since every id
that arrives is already present. -/
theorem import_export_roundtrip (s : TaxStoreState) (t : String)
    (h : ∀ p ∈ s.projects, p.id ≠ "" ∧ p.name ≠ "") :
    importProjects (parseExported (exportProjects t s)) s = (true, s) := by
  have hdef : importProjects (parseExported (exportProjects t s)) s =
      if (s.projects.map projectToRaw).all rawValid = true then
        (true, { s with
                 projects := s.projects ++
                   ((s.projects.map projectToRaw).filter (fun p =>
                     !((s.projects.map (fun q => q.id)).contains (p.id.getD "")))).map
                     rawToProject })
      else (false, s) := rfl
  have hall : (s.projects.map projectToRaw).all rawValid = true := by
    rw [List.all_eq_true]
    intro x hx
    obtain ⟨p, hp, rfl⟩ := List.mem_map.mp hx
    have hid := (h p hp).1
    have hname := (h p hp).2
    simp [rawValid, projectToRaw, strTruthy, hid, hname]
  have hfil : (s.projects.map projectToRaw).filter (fun p =>
      !((s.projects.map (fun q => q.id)).contains (p.id.getD ""))) = [] := by
    rw [List.filter_eq_nil_iff]
    intro a ha
    obtain ⟨p, hp, rfl⟩ := List.mem_map.mp ha
    have hmem : p.id ∈ s.projects.map (fun q => q.id) := List.mem_map.mpr ⟨p, hp, rfl⟩
    simp [projectToRaw, hmem]
  rw [hdef, if_pos hall, hfil]
  simp

/-- C9 witness: a one-scenario store with nonempty id and name round-trips
unchanged through export and import. -/
theorem import_export_roundtrip_witness :
    importProjects (parseExported (exportProjects "t1"
        ⟨defaultProjectData, [⟨"1", "A", "t0", "t0", defaultProjectData⟩], none⟩))
      ⟨defaultProjectData, [⟨"1", "A", "t0", "t0", defaultProjectData⟩], none⟩ =
      (true, ⟨defaultProjectData, [⟨"1", "A", "t0", "t0", defaultProjectData⟩], none⟩) :=
  import_export_roundtrip
    ⟨defaultProjectData, [⟨"1", "A", "t0", "t0", defaultProjectData⟩], none⟩ "t1"
    (by intro p hp; rw [List.mem_singleton] at hp; subst hp; exact ⟨by decide, by decide⟩)
